import Mathlib

/-!
Verification development for the pyscine report compiler (`make.py`).

The Python source is shallowly embedded: the shared mutable line stream is
modelled as an explicit `List String` (with `readline` popping the head and
returning `""` at end of stream, as Python file objects do), Python `dict`s
as association lists, fallible code as `Except`, and the handful of string
operations the source uses (`startswith`, `replace`, `strip`, `split`,
`lower`, `in`, regular-expression matching for the three fixed patterns in
the source) as executable functions over `List Char` mirroring CPython
semantics.  Multi-dimensional numeric arrays are modelled numpy-style as a
shape vector plus a flat element list.
-/

namespace Pyscine

/-- Errors raised by the embedded code, mirroring the Python exception
classes that the corresponding source lines raise.  `fuel` marks exhaustion
of a recursion bound and is unreachable for the bounds used below. -/
inductive Err where
  | valueError (msg : String)
  | runtimeError
  | typeError
  | indexError
  | assertionError
  | fuel
deriving DecidableEq, Repr

/-! ## Python string primitives (over `List Char`) -/

/-- `s.startswith(pre)`. -/
def pyStartsWith (s pre : String) : Bool :=
  pre.data.isPrefixOf s.data

/-- One scan step of `str.replace`: replace every occurrence of `old`
(nonempty in all uses below) by `new`, left to right, non-overlapping. -/
def pyReplaceAux (old new : List Char) : Nat → List Char → List Char
  | 0, cs => cs
  | _ + 1, [] => []
  | n + 1, c :: cs =>
    if old.isPrefixOf (c :: cs) then
      new ++ pyReplaceAux old new n ((c :: cs).drop old.length)
    else
      c :: pyReplaceAux old new n cs

/-- `s.replace(old, new)` for nonempty `old` (every use in the source has a
nonempty first argument). -/
def pyReplace (s old new : String) : String :=
  if old.data = [] then s
  else (pyReplaceAux old.data new.data s.data.length s.data).asString

/-- Python whitespace test for `str.strip` (the characters occurring in the
reports: space, tab, newline, carriage return). -/
def pySpace (c : Char) : Bool := c = ' ' ∨ c = '\t' ∨ c = '\n' ∨ c = '\r'

/-- `s.strip()`. -/
def pyStrip (s : String) : String :=
  (((s.data.dropWhile pySpace).reverse.dropWhile pySpace).reverse).asString

/-- `s.lower()` (ASCII, which is all the attribute values use). -/
def pyLower (s : String) : String :=
  (s.data.map Char.toLower).asString

/-- Scanner for `s.split(sep)` with nonempty `sep`. -/
def pySplitAux (sep : List Char) : Nat → List Char → List Char → List (List Char)
  | 0, acc, cs => [acc ++ cs]
  | _ + 1, acc, [] => [acc]
  | n + 1, acc, c :: cs =>
    if sep.isPrefixOf (c :: cs) then
      acc :: pySplitAux sep n [] ((c :: cs).drop sep.length)
    else
      pySplitAux sep n (acc ++ [c]) cs

/-- `s.split(sep)` for nonempty `sep` (the source splits on `":"`, `"$"`,
`"$$"`). -/
def pySplit (s sep : String) : List String :=
  ((pySplitAux sep.data s.data.length [] s.data).map List.asString)

/-- Scanner for substring containment. -/
def pyContainsAux (sub : List Char) : List Char → Bool
  | [] => sub.isPrefixOf []
  | c :: cs => sub.isPrefixOf (c :: cs) || pyContainsAux sub cs

/-- `sub in s` (substring containment). -/
def pyContains (s sub : String) : Bool :=
  pyContainsAux sub.data s.data

/-- `sep.join(parts)`. -/
def pyJoin (sep : String) : List String → String
  | [] => ""
  | [s] => s
  | s :: rest => s ++ sep ++ pyJoin sep rest

/-- `int(s)`: strip, optional sign, then at least one digit.  Anything else
raises `ValueError` (a fatal parse error in the source). -/
def pyInt (s : String) : Except Err Int :=
  let digitsVal : List Char → Except Err Nat := fun ds =>
    if ds ≠ [] ∧ ds.all Char.isDigit then
      .ok (ds.foldl (fun acc c => 10 * acc + (c.toNat - '0'.toNat)) 0)
    else .error (.valueError ("invalid literal for int(): " ++ s))
  match (pyStrip s).data with
  | '-' :: ds => (digitsVal ds).map (fun v => -(v : Int))
  | '+' :: ds => (digitsVal ds).map (fun v => (v : Int))
  | ds => (digitsVal ds).map (fun v => (v : Int))

/-! ## Line stream, attribute values, attribute maps -/

/-- `f.readline()`: pop the next line; at end of stream Python file objects
return the empty string `""` (forever), which the parsers use as the
end-of-stream terminator. -/
def readline (stream : List String) : String × List String :=
  match stream with
  | [] => ("", [])
  | l :: ls => (l, ls)

/-- A Python attribute value as stored in a directive's attribute `dict`.
Directive defaults in the source are booleans or strings (the source also
coerces `float` defaults via `float()`, but no directive declares a
float-valued default, so floats do not occur).  Keeping `int` alongside
makes the source's `1` literal inside the boolean-coercion tuple
representable. -/
inductive PyVal where
  | bool (b : Bool)
  | int (n : Int)
  | str (s : String)
deriving DecidableEq, Repr

/-- A directive's declared attribute schema: ordered `(name, default)`
pairs, the source's per-class `ATTRIBUTES` list. -/
abbrev Schema := List (String × PyVal)

/-- The attribute dictionary: association list in insertion order. -/
abbrev AttrMap := List (String × PyVal)

/-- `attrs[attr] = value`: overwrite the first binding of `attr` (every
assignment in `parse_attr` hits a key pre-seeded by `init_attributes`). -/
def setAttr (attrs : AttrMap) (name : String) (v : PyVal) : AttrMap :=
  match attrs with
  | [] => [(name, v)]
  | (k, w) :: rest =>
    if k = name then (k, v) :: rest else (k, w) :: setAttr rest name v

/-- `attrs[name]` lookup. -/
def getAttr (attrs : AttrMap) (name : String) : Option PyVal :=
  match attrs with
  | [] => none
  | (k, w) :: rest => if k = name then some w else getAttr rest name

/-- Extract a boolean attribute produced by the coercion (used when the
source constructor consumes `**attrs`). -/
def getBoolAttr (attrs : AttrMap) (name : String) : Bool :=
  match getAttr attrs name with
  | some (.bool b) => b
  | _ => false

/-- Extract a string attribute (used when the source constructor consumes
`**attrs` or reads `attrs["type"]`). -/
def getStrAttr (attrs : AttrMap) (name : String) : String :=
  match getAttr attrs name with
  | some (.str s) => s
  | _ => ""

/-- `cls.init_attributes()`: `dict(list(cls.ATTRIBUTES))`. -/
def init_attributes (schema : Schema) : AttrMap := schema

/-- The membership tuple of the source's boolean coercion, verbatim:
`("true", "yes", "t", 1, "y")`.  Note the fourth element is the *integer*
`1`, not the string `"1"`. -/
def boolTuple : List PyVal :=
  [.str "true", .str "yes", .str "t", .int 1, .str "y"]

/-- `value.lower() in ("true", "yes", "t", 1, "y")`: Python `in` compares
with `==`, and a `str` never equals an `int`. -/
def boolCoerce (value : String) : Bool :=
  boolTuple.contains (.str (pyLower value))

/-- Coerce the textual value per the type of the declared default, as
`Parseable.parse_attr` does with `isinstance` checks.  A malformed integer
is a fatal `ValueError`. -/
def coerceValue (default : PyVal) (value : String) : Except Err PyVal :=
  match default with
  | .bool _ => .ok (.bool (boolCoerce value))
  | .int _ => (pyInt value).map .int
  | .str _ => .ok (.str value)

/-- `Parseable.parse_attr`: one pass of the source's `for attr, default in
cls.ATTRIBUTES` loop.  When the lookahead line starts with `"<attr>="`, the
prefix is stripped (`line.replace(f"{attr}=", "")`, which replaces every
occurrence), the remainder is stripped and coerced, stored, and the cursor
advances; the loop then moves on to the *next* declared attribute.  Returns
the final lookahead line. -/
def parse_attr : Schema → String → List String → AttrMap →
    Except Err (String × List String × AttrMap)
  | [], line, stream, attrs => .ok (line, stream, attrs)
  | (attr, default) :: schemaRest, line, stream, attrs =>
    if pyStartsWith line (attr ++ "=") then
      let value := pyStrip (pyReplace line (attr ++ "=") "")
      match coerceValue default value with
      | .error e => .error e
      | .ok v =>
        let (line', stream') := readline stream
        parse_attr schemaRest line' stream' (setAttr attrs attr v)
    else
      parse_attr schemaRest line stream attrs

/-- `Parseable.parse_gen`: the shared generic-termination step.  Returns the
(possibly advanced) lookahead line, the remaining stream, the updated
attribute map and the `should_break` flag. -/
def parse_gen (schema : Schema) (line : String) (stream : List String)
    (attrs : AttrMap) : Except Err (String × List String × AttrMap × Bool) :=
  if line = "" then .ok (line, stream, attrs, true)
  else if pyStartsWith line "[" then .ok (line, stream, attrs, true)
  else if pyStartsWith line "--" then .ok (line, stream, attrs, true)
  else
    match parse_attr schema line stream attrs with
    | .error e => .error e
    | .ok (line, stream, attrs) =>
      if pyStartsWith line "__nop" then
        .ok (pyReplace line "__nop" "", stream, attrs, false)
      else
        .ok (line, stream, attrs, false)

/-! ## Arrays and the data-reference resolver -/

/-- A numpy-style multi-dimensional numeric array: shape vector plus the
row-major flat element list.  A scalar (0-d result of full indexing) has
shape `[]` and a singleton flat list. -/
structure NDArr where
  shape : List Nat
  flat : List Int
deriving DecidableEq, Repr

/-- A one-dimensional array. -/
def NDArr.ofList (xs : List Int) : NDArr := ⟨[xs.length], xs⟩

/-- A scalar. -/
def NDArr.scalar (v : Int) : NDArr := ⟨[], [v]⟩

/-- `str(x)` for the element values (numpy integer scalars print as their
decimal form). -/
def intStr (v : Int) : String := toString v

/-- `arr2str` from the source, recursing on the shape:

    def arr2str(arr):
        if len(arr.shape) == 1:
            return "[...]" built from ", ".join(map(str, arr))
        return "[...]" built from ", ".join([arr2str(x) for x in arr])

A 0-d value (`len(shape) == 0`) falls into the second branch, which
iterates over the scalar — a `TypeError` in Python. -/
def arr2strAux : List Nat → List Int → Except Err String
  | [], _ => .error .typeError
  | [n], flat => .ok ("[" ++ pyJoin ", " ((flat.take n).map intStr) ++ "]")
  | n :: rest, flat =>
    let bs := rest.prod
    ((List.range n).mapM (fun i => arr2strAux rest ((flat.drop (i * bs)).take bs))).map
      (fun strs => "[" ++ pyJoin ", " strs ++ "]")

/-- `arr2str(arr)`. -/
def arr2str (a : NDArr) : Except Err String := arr2strAux a.shape a.flat

/-- `arr[i]` with the host array's negative-index wraparound; out-of-range
indices and indexing a scalar raise `IndexError`. -/
def pyIndex (a : NDArr) (i : Int) : Except Err NDArr :=
  match a.shape with
  | [] => .error .indexError
  | n :: rest =>
    let i' := if i < 0 then i + (n : Int) else i
    if 0 ≤ i' ∧ i' < (n : Int) then
      let bs := rest.prod
      .ok ⟨rest, (a.flat.drop (i'.toNat * bs)).take bs⟩
    else .error .indexError

/-- The index sequence CPython's slice machinery produces for a first axis
of length `n` (`PySlice_Unpack`/`PySlice_AdjustIndices`): omitted fields
default per the sign of the step, negative bounds wrap, out-of-range bounds
clamp, and indices run from the adjusted start toward the adjusted stop in
steps of `step`. -/
def sliceIndices (n : Nat) (start stop : Option Int) (step : Int) : List Nat :=
  let N : Int := n
  if 0 < step then
    let st := match start with
      | none => 0
      | some a =>
        let a := if a < 0 then a + N else a
        if a < 0 then 0 else if a ≥ N then N else a
    let sp := match stop with
      | none => N
      | some b =>
        let b := if b < 0 then b + N else b
        if b < 0 then 0 else if b ≥ N then N else b
    let cnt := ((sp - st).toNat + (step.toNat - 1)) / step.toNat
    (List.range cnt).map (fun j => (st + step * (j : Int)).toNat)
  else
    let st := match start with
      | none => N - 1
      | some a =>
        let a := if a < 0 then a + N else a
        if a < 0 then -1 else if a ≥ N then N - 1 else a
    let sp := match stop with
      | none => -1
      | some b =>
        let b := if b < 0 then b + N else b
        if b < 0 then -1 else if b ≥ N then N - 1 else b
    let k := -step
    let cnt := ((st - sp).toNat + (k.toNat - 1)) / k.toNat
    (List.range cnt).map (fun j => (st + step * (j : Int)).toNat)

/-- `arr[start:stop:step]` along the first axis; slicing a scalar raises,
and a zero step raises `ValueError`. -/
def pySliceOp (a : NDArr) (start stop : Option Int) (step : Int) :
    Except Err NDArr :=
  match a.shape with
  | [] => .error .indexError
  | n :: rest =>
    if step = 0 then .error (.valueError "slice step cannot be zero")
    else
      let bs := rest.prod
      let idxs := sliceIndices n start stop step
      .ok ⟨idxs.length :: rest, idxs.flatMap (fun i => (a.flat.drop (i * bs)).take bs)⟩

/-- `re.match(r"([^\[\s]+)([^\s]*)", s)`: group 1 is the maximal nonempty
leading run of non-bracket non-whitespace characters, group 2 the following
maximal run of non-whitespace characters.  `None` when group 1 would be
empty. -/
def reMatchName (s : String) : Option (String × String) :=
  let g1 := s.data.takeWhile (fun c => ¬ (c = '[' ∨ pySpace c))
  if g1 = [] then none
  else
    let rest := s.data.drop g1.length
    some (g1.asString, (rest.takeWhile (fun c => ¬ pySpace c)).asString)

/-- Scanner for `re.findall(r"\[([^\]]+)\]", s)`: each match is the content
between a `[` and the next `]`, nonempty, scanning left to right without
overlap. -/
def findBracketsAux : Nat → List Char → List String
  | 0, _ => []
  | _ + 1, [] => []
  | n + 1, c :: cs =>
    if c = '[' then
      match cs.span (fun d => d ≠ ']') with
      | (mid, _ :: rest) =>
        if mid = [] then findBracketsAux n cs
        else mid.asString :: findBracketsAux n rest
      | (_, []) => []
    else findBracketsAux n cs

/-- `re.findall(r"\[([^\]]+)\]", s)`. -/
def findBrackets (s : String) : List String :=
  findBracketsAux s.data.length s.data

/-- One chained op of `Document.get_data`, applied to the current array
value.  This is the source's per-`rng` body, branch for branch; the two
fallback branches of a slice with a nonempty start field read
`len(slice)` — `slice` being the Python *builtin type*, not the local
`_slice` — and `len()` of a type raises `TypeError` before any indexing
happens. -/
def getDataOp (arr : NDArr) (rng : String) : Except Err NDArr :=
  if ¬ pyContains rng ":" then do
    pyIndex arr (← pyInt rng)
  else
    let sl := pySplit rng ":"
    if sl.getD 0 "" = "" then
      if sl.getD 1 "" = "" then
        if sl.length > 2 then do
          pySliceOp arr none none (← pyInt (sl.getD 2 ""))
        else
          .error .runtimeError
      else
        if sl.length > 2 then do
          pySliceOp arr none (some (← pyInt (sl.getD 1 ""))) (← pyInt (sl.getD 2 ""))
        else do
          pySliceOp arr none (some (← pyInt (sl.getD 1 ""))) 1
    else
      if sl.length = 1 then do
        pyIndex arr (← pyInt (sl.getD 0 ""))
      else if sl.getD 1 "" = "" then
        -- source: `if len(slice) > 2:` — `slice` is the builtin type; TypeError
        .error .typeError
      else
        -- source: `if len(slice) > 2:` — same TypeError
        .error .typeError

/-- The `Document` state the compiler threads through parsing: the named
array table (absent when no `.npz` data file was found) and the accumulated
client-script payload `js`, plus the prelude configuration. -/
structure Doc where
  name : String
  data : Option (List (String × NDArr)) := none
  js : List String := []
  accordion : Bool := false
  template : String := "default"
deriving DecidableEq, Repr

/-- Array-table lookup (`m.group(1) not in self.data`). -/
def tableLookup (table : List (String × NDArr)) (key : String) : Option NDArr :=
  match table with
  | [] => none
  | (k, a) :: rest => if k = key then some a else tableLookup rest key

/-- The resolution part of `Document.get_data`: check the table is bound,
strip the `@data.` prefix (Python `assert` on it first), parse the name and
op chain, look the name up and fold the ops left to right.  When there are
no ops the source returns the array immediately; folding over the empty op
list is the same value. -/
def resolve_data (doc : Doc) (idstr : String) : Except Err NDArr := do
  match doc.data with
  | none => .error (.valueError "No data found for doc")
  | some table =>
    if ¬ pyStartsWith idstr "@data." then .error .assertionError
    else
      let s := pyReplace idstr "@data." ""
      match reMatchName s with
      | none => .error (.valueError ("Could not parse " ++ idstr))
      | some (g1, g2) =>
        match tableLookup table g1 with
        | none => .error (.valueError ("No key for " ++ g1))
        | some arr =>
          (findBrackets g2).foldlM getDataOp arr

/-- `Document.get_data(idstr, to_str=True)`: resolve, then serialize. -/
def get_data_str (doc : Doc) (idstr : String) : Except Err String := do
  arr2str (← resolve_data doc idstr)

/-- The result of `Document.get_data`: an array, or its string form when
`to_str` is set. -/
inductive DataRes where
  | arr (a : NDArr)
  | str (s : String)
deriving DecidableEq, Repr

/-- `Document.get_data(idstr, to_str)`. -/
def get_data (doc : Doc) (idstr : String) (to_str : Bool) : Except Err DataRes :=
  if to_str then (get_data_str doc idstr).map .str
  else (resolve_data doc idstr).map .arr

/-- Scanner for `re.findall(r"@data\.[a-zA-Z-_\[\]\d:]+", line)`: a literal
`@data.` followed by a nonempty maximal run over the character class. -/
def isRefChar (c : Char) : Bool :=
  c.isAlpha ∨ c = '-' ∨ c = '_' ∨ c = '[' ∨ c = ']' ∨ c.isDigit ∨ c = ':'

/-- Left-to-right non-overlapping scan for data-reference tokens. -/
def findDataRefsAux : Nat → List Char → List String
  | 0, _ => []
  | _ + 1, [] => []
  | n + 1, c :: cs =>
    if "@data.".data.isPrefixOf (c :: cs) then
      let after := (c :: cs).drop 6
      match after.span isRefChar with
      | ([], _) => findDataRefsAux n cs
      | (run, rest) => ("@data." ++ run.asString) :: findDataRefsAux n rest
    else findDataRefsAux n cs

/-- `re.findall(r"@data\.[a-zA-Z-_\[\]\d:]+", line)`. -/
def findDataRefs (line : String) : List String :=
  findDataRefsAux line.data.length line.data

/-- `Document.replace_data`: substitute every found data-reference token by
its stringified value (`str.replace` on the running line, sequentially). -/
def replace_data (doc : Doc) (line : String) : Except Err String :=
  (findDataRefs line).foldlM
    (fun acc x => (get_data_str doc x).map (fun v => pyReplace acc x v)) line

/-! ## Inline text formatter (`Text.render`) -/

/-- The backtick character. -/
def btick : Char := Char.ofNat 96

/-- Scanner for ``re.sub("`([^`]+)`", r"<code>\1</code>", s)``: a leftmost
match needs a backtick, a nonempty run of non-backticks, and a closing
backtick; on a failed start position the scan resumes one character
later. -/
def subCodeAux : Nat → List Char → List Char
  | 0, cs => cs
  | _ + 1, [] => []
  | n + 1, c :: cs =>
    if c = btick then
      match cs.span (fun d => d ≠ btick) with
      | (mid, _ :: rest) =>
        if mid = [] then c :: subCodeAux n cs
        else "<code>".data ++ mid ++ "</code>".data ++ subCodeAux n rest
      | (_, []) => c :: cs
    else c :: subCodeAux n cs

/-- The inline-code substitution. -/
def subCode (s : String) : String := (subCodeAux s.data.length s.data).asString

/-- Scanner for `re.sub("\*\*([^\*]+)\*\*", r"<b>\1</b>", s)`: `**`, a
nonempty run of non-asterisks, `**`. -/
def subBoldAux : Nat → List Char → List Char
  | 0, cs => cs
  | _ + 1, [] => []
  | n + 1, '*' :: '*' :: cs =>
    (match cs.span (fun d => d ≠ '*') with
    | (mid, []) => '*' :: '*' :: mid
    | (mid, _ :: rest1) =>
      if mid = [] then '*' :: subBoldAux n ('*' :: cs)
      else
        match rest1 with
        | d2 :: rest2 =>
          if d2 = '*' then "<b>".data ++ mid ++ "</b>".data ++ subBoldAux n rest2
          else '*' :: '*' :: (mid ++ subBoldAux n ('*' :: rest1))
        | [] => '*' :: '*' :: (mid ++ subBoldAux n ('*' :: rest1)))
  | n + 1, c :: cs => c :: subBoldAux n cs

/-- The bold substitution. -/
def subBold (s : String) : String := (subBoldAux s.data.length s.data).asString

/-- Scanner for `re.sub("\*([^\*]+)\*", r"<i>\1</i>", s)` (applied after
the bold substitution, so `**` has already been consumed). -/
def subItalicAux : Nat → List Char → List Char
  | 0, cs => cs
  | _ + 1, [] => []
  | n + 1, '*' :: cs =>
    (match cs.span (fun d => d ≠ '*') with
    | (mid, _ :: rest) =>
      if mid = [] then '*' :: subItalicAux n cs
      else "<i>".data ++ mid ++ "</i>".data ++ subItalicAux n rest
    | (mid, []) => '*' :: mid)
  | n + 1, c :: cs => c :: subItalicAux n cs

/-- The italic substitution. -/
def subItalic (s : String) : String := (subItalicAux s.data.length s.data).asString

/-- Scanner for `re.sub("\[([^\]]+)\]\(([^\)]+)\)", r"<a href='\2'>\1</a>",
s)`: `[label](url)` with nonempty label (no `]`) and nonempty url (no
`)`). -/
def subLinkAux : Nat → List Char → List Char
  | 0, cs => cs
  | _ + 1, [] => []
  | n + 1, '[' :: cs =>
    (match cs.span (fun d => d ≠ ']') with
    | (label, _ :: rest1) =>
      if label = [] then '[' :: subLinkAux n cs
      else
        match rest1 with
        | '(' :: rest2 =>
          (match rest2.span (fun d => d ≠ ')') with
          | (url, _ :: rest3) =>
            if url = [] then '[' :: subLinkAux n cs
            else
              "<a href='".data ++ url ++ "'>".data ++ label ++
                "</a>".data ++ subLinkAux n rest3
          | (_, []) => '[' :: subLinkAux n cs)
        | _ => '[' :: subLinkAux n cs
    | (_, []) => '[' :: cs)
  | n + 1, c :: cs => c :: subLinkAux n cs

/-- The hyperlink substitution. -/
def subLink (s : String) : String := (subLinkAux s.data.length s.data).asString

/-- The four substitutions in source order: code, bold, italic, link (the
underline one is commented out in the source). -/
def applySubs (s : String) : String := subLink (subItalic (subBold (subCode s)))

/-- The inner pass of `Text.render` on one non-display segment: split on
`"$"`, keep odd (inline-equation) sub-segments verbatim, apply the
substitutions to even sub-segments. -/
def renderSubSegs (seg : String) : List String :=
  (pySplit seg "$").enum.map
    (fun p => if p.1 % 2 = 1 then p.2 else applySubs p.2)

/-- Rejoin the inner pass with `"$"`. -/
def renderSeg (seg : String) : String :=
  pyJoin "$" (renderSubSegs seg)

/-- A literal text node. -/
structure Text where
  text : String
deriving DecidableEq, Repr

/-- The outer pass of `Text.render`: split on `"$$"`, keep odd
(display-equation) segments verbatim, process even segments with the inner
pass. -/
def renderSegs (t : Text) : List String :=
  (pySplit t.text "$$").enum.map
    (fun p => if p.1 % 2 = 1 then p.2 else renderSeg p.2)

/-- `Text.render`: the processed segments rejoined with `"$$"`. -/
def Text.render (t : Text) : String :=
  pyJoin "$$" (renderSegs t)

/-! ## Directive parsers -/

/-- `HtmlElement` restricted to what the claims exercise: children are
already-rendered strings (the Plotly container has none). -/
structure HtmlElement where
  tag : String
  attrs : List (String × String)
  content : List String
deriving DecidableEq, Repr

/-- `HtmlElement.render`: `<tag k="v" ...>children</tag>`. -/
def HtmlElement.render (e : HtmlElement) : String :=
  let a := pyJoin " " (e.attrs.map (fun kv => kv.1 ++ "=\"" ++ kv.2 ++ "\""))
  "<" ++ e.tag ++ " " ++ a ++ ">" ++ String.join e.content ++ "</" ++ e.tag ++ ">"

/-- The `image` element. -/
structure Image where
  src : String
deriving DecidableEq, Repr

/-- `Image.render` (this one has a `return`). -/
def Image.render (img : Image) : String :=
  "<center><br/><img src=\"" ++ img.src ++ "\" width=\"80%\"/><br/></center>"

def Image.ATTRIBUTES : Schema := []

/-- The body loop of `Image.parse`: skip `"\n"` lines, otherwise overwrite
`src` with the stripped line; stop on the generic terminator. -/
def Image.parseLoop : Nat → String → List String → AttrMap → String →
    Except Err (String × List String × String)
  | 0, _, _, _, _ => .error .fuel
  | n + 1, line, stream, attrs, src =>
    match parse_gen Image.ATTRIBUTES line stream attrs with
    | .error e => .error e
    | .ok (line, stream, attrs, shouldBreak) =>
      if shouldBreak then .ok (line, stream, src)
      else if line = "\n" then
        let (line', stream') := readline stream
        Image.parseLoop n line' stream' attrs src
      else
        let (line', stream') := readline stream
        Image.parseLoop n line' stream' attrs (pyStrip line)

/-- `Image.parse(line, f, doc)` (the marker line is dropped by the leading
`f.readline()`). -/
def Image.parse (line : String) (stream : List String) :
    Except Err (String × List String × Image) :=
  let _ := line
  let (line, stream) := readline stream
  (Image.parseLoop (stream.length + 2) line stream
      (init_attributes Image.ATTRIBUTES) "").map
    (fun r => (r.1, r.2.1, ⟨r.2.2⟩))

/-- The `audio` element. -/
structure Audio where
  src : String
deriving DecidableEq, Repr

/-- The markup string `Audio.render` accumulates into its local `html`. -/
def Audio.renderBuilt (a : Audio) : String :=
  "<audio controls src='" ++ a.src ++ "'>" ++
    "Your browser does not support the <code>audio</code> element." ++ "</audio>"

/-- `Audio.render` builds `renderBuilt` into a local variable but has no
`return` statement, so the Python call returns `None`. -/
def Audio.render (a : Audio) : Option String :=
  let _ := Audio.renderBuilt a
  none

def Audio.ATTRIBUTES : Schema := []

/-- The body loop of `Audio.parse` — identical to `Image.parse`'s. -/
def Audio.parseLoop : Nat → String → List String → AttrMap → String →
    Except Err (String × List String × String)
  | 0, _, _, _, _ => .error .fuel
  | n + 1, line, stream, attrs, src =>
    match parse_gen Audio.ATTRIBUTES line stream attrs with
    | .error e => .error e
    | .ok (line, stream, attrs, shouldBreak) =>
      if shouldBreak then .ok (line, stream, src)
      else if line = "\n" then
        let (line', stream') := readline stream
        Audio.parseLoop n line' stream' attrs src
      else
        let (line', stream') := readline stream
        Audio.parseLoop n line' stream' attrs (pyStrip line)

/-- `Audio.parse(line, f, doc)`. -/
def Audio.parse (line : String) (stream : List String) :
    Except Err (String × List String × Audio) :=
  let _ := line
  let (line, stream) := readline stream
  (Audio.parseLoop (stream.length + 2) line stream
      (init_attributes Audio.ATTRIBUTES) "").map
    (fun r => (r.1, r.2.1, ⟨r.2.2⟩))

/-- The `video` element: `src` holds the `(mime-type, path)` pairs the body
lines are whitespace-split into (`Video.parse` stores the raw token lists;
`render` unpacks each as a pair). -/
structure Video where
  src : List (String × String)
deriving DecidableEq, Repr

/-- The markup string `Video.render` accumulates into its local `html`:
one `<source>` entry per pair, formatted `"<source src='{}', type='{}'>"
.format(src, vtype)`. -/
def Video.renderBuilt (v : Video) : String :=
  "<video controls width='80%'>" ++
    String.join (v.src.map (fun p => "<source src='" ++ p.2 ++ "', type='" ++ p.1 ++ "'>")) ++
    "Your browser does not support the <code>video</code> element." ++ "</video>"

/-- `Video.render` also lacks a `return` statement: the call returns
`None`. -/
def Video.render (v : Video) : Option String :=
  let _ := Video.renderBuilt v
  none

/-- The `javascript` element (renders nothing; its effect is on `doc.js`). -/
structure Javascript where
deriving DecidableEq, Repr

/-- `Javascript.render` returns the empty string. -/
def Javascript.render (_ : Javascript) : String := ""

def Javascript.ATTRIBUTES : Schema := []

/-- The body loop of `Javascript.parse`: accumulate every body line
verbatim. -/
def Javascript.parseLoop : Nat → String → List String → AttrMap → List String →
    Except Err (String × List String × List String)
  | 0, _, _, _, _ => .error .fuel
  | n + 1, line, stream, attrs, lines =>
    match parse_gen Javascript.ATTRIBUTES line stream attrs with
    | .error e => .error e
    | .ok (line, stream, attrs, shouldBreak) =>
      if shouldBreak then .ok (line, stream, lines)
      else
        let (line', stream') := readline stream
        Javascript.parseLoop n line' stream' attrs (lines ++ [line])

/-- `Javascript.parse(line, f, doc)`: `doc.js += lines`. -/
def Javascript.parse (line : String) (stream : List String) (doc : Doc) :
    Except Err (String × List String × Doc × Javascript) :=
  let _ := line
  let (line, stream) := readline stream
  (Javascript.parseLoop (stream.length + 2) line stream
      (init_attributes Javascript.ATTRIBUTES) []).map
    (fun r => (r.1, r.2.1, { doc with js := doc.js ++ r.2.2 }, ⟨⟩))

/-- The `plotly` element: renders only its placeholder container. -/
structure Plotly where
  container : HtmlElement
deriving DecidableEq, Repr

/-- `Plotly.render` returns the container's markup. -/
def Plotly.render (p : Plotly) : String := p.container.render

def Plotly.ATTRIBUTES : Schema := []

/-- The body loop of `Plotly.parse`: accumulate `doc.replace_data(line)`
for every body line. -/
def Plotly.parseLoop (doc : Doc) : Nat → String → List String → AttrMap → List String →
    Except Err (String × List String × List String)
  | 0, _, _, _, _ => .error .fuel
  | n + 1, line, stream, attrs, lines =>
    match parse_gen Plotly.ATTRIBUTES line stream attrs with
    | .error e => .error e
    | .ok (line, stream, attrs, shouldBreak) =>
      if shouldBreak then .ok (line, stream, lines)
      else
        match replace_data doc line with
        | .error e => .error e
        | .ok subst =>
          let (line', stream') := readline stream
          Plotly.parseLoop doc n line' stream' attrs (lines ++ [subst])

/-- `Plotly.parse(line, f, doc)`.  The source derives `elt_id` from the
wall clock (`"plot-" + str(int(time.time() * 10000))`), an out-of-scope
effect; it is taken as the `eltId` input here.  The container-binding
prelude statement is pushed first, then the substituted body lines; the
whole batch is appended to `doc.js`. -/
def Plotly.parse (eltId : String) (line : String) (stream : List String) (doc : Doc) :
    Except Err (String × List String × Doc × Plotly) :=
  let _ := line
  let (line, stream) := readline stream
  let container : HtmlElement := ⟨"div", [("class", "row"), ("id", eltId)], []⟩
  let lines0 := ["CONTAINER = document.getElementById('" ++ eltId ++ "');"]
  (Plotly.parseLoop doc (stream.length + 2) line stream
      (init_attributes Plotly.ATTRIBUTES) lines0).map
    (fun r => (r.1, r.2.1, { doc with js := doc.js ++ r.2.2 }, ⟨container⟩))

/-- The `alert` element (only the fields the parser produces). -/
structure Alert where
  text : String
  atype : String
deriving DecidableEq, Repr

def Alert.ATTRIBUTES : Schema := [("type", .str "secondary")]

/-- The body loop of `Alert.parse`: accumulate body lines verbatim. -/
def Alert.parseLoop : Nat → String → List String → AttrMap → List String →
    Except Err (String × List String × AttrMap × List String)
  | 0, _, _, _, _ => .error .fuel
  | n + 1, line, stream, attrs, texts =>
    match parse_gen Alert.ATTRIBUTES line stream attrs with
    | .error e => .error e
    | .ok (line, stream, attrs, shouldBreak) =>
      if shouldBreak then .ok (line, stream, attrs, texts)
      else
        let (line', stream') := readline stream
        Alert.parseLoop n line' stream' attrs (texts ++ [line])

/-- `Alert.parse(line, f, doc)`: `cls("".join(text), atype=attrs["type"])`. -/
def Alert.parse (line : String) (stream : List String) :
    Except Err (String × List String × Alert) :=
  let _ := line
  let (line, stream) := readline stream
  (Alert.parseLoop (stream.length + 2) line stream
      (init_attributes Alert.ATTRIBUTES) []).map
    (fun r => (r.1, r.2.1, ⟨String.join r.2.2.2, getStrAttr r.2.2.1 "type"⟩))

/-- `re.match("<<([^>]+)>>(.*)", line.strip())`: `<<`, a nonempty run of
non-`>` characters, `>>`, then the rest of the line. -/
def matchLink (s : String) : Option (String × String) :=
  match s.data with
  | '<' :: '<' :: cs =>
    (match cs.span (fun d => d ≠ '>') with
    | (g1, _ :: d2 :: rest) =>
      if d2 = '>' ∧ g1 ≠ [] then some (g1.asString, rest.asString) else none
    | _ => none)
  | _ => none

/-- The `list` element (the source class is named `List`; renamed here to
avoid clashing with Lean's `List`).  Items are `(label, optional href)`. -/
structure ListDirective where
  items : List (String × Option String)
  block : Bool
  ordered : Bool
  prelude : String
deriving DecidableEq, Repr

def ListDirective.ATTRIBUTES : Schema :=
  [("block", .bool false), ("ordered", .bool false), ("prelude", .str "")]

/-- The body loop of `List.parse`: skip `"\n"` lines; a `<<href>>label`
line becomes a link item, anything else a plain item. -/
def ListDirective.parseLoop : Nat → String → List String → AttrMap →
    List (String × Option String) →
    Except Err (String × List String × AttrMap × List (String × Option String))
  | 0, _, _, _, _ => .error .fuel
  | n + 1, line, stream, attrs, items =>
    match parse_gen ListDirective.ATTRIBUTES line stream attrs with
    | .error e => .error e
    | .ok (line, stream, attrs, shouldBreak) =>
      if shouldBreak then .ok (line, stream, attrs, items)
      else if line = "\n" then
        let (line', stream') := readline stream
        ListDirective.parseLoop n line' stream' attrs items
      else
        let item :=
          if pyStartsWith line "<<" then
            match matchLink (pyStrip line) with
            | some (g1, g2) => (g2, some g1)
            | none => (pyStrip line, none)
          else (pyStrip line, none)
        let (line', stream') := readline stream
        ListDirective.parseLoop n line' stream' attrs (items ++ [item])

/-- `List.parse(line, f, doc)`: `cls(items, **attrs)`. -/
def ListDirective.parse (line : String) (stream : List String) :
    Except Err (String × List String × ListDirective) :=
  let _ := line
  let (line, stream) := readline stream
  (ListDirective.parseLoop (stream.length + 2) line stream
      (init_attributes ListDirective.ATTRIBUTES) []).map
    (fun r =>
      (r.1, r.2.1,
        ⟨r.2.2.2, getBoolAttr r.2.2.1 "block", getBoolAttr r.2.2.1 "ordered",
          getStrAttr r.2.2.1 "prelude"⟩))

/-! ## Derived definitions used by the statements -/

/-- A body line that triggers neither the generic terminator nor the no-op
marker. -/
def plainBody (l : String) : Prop :=
  l ≠ "" ∧ pyStartsWith l "[" = false ∧ pyStartsWith l "--" = false ∧
    pyStartsWith l "__nop" = false

instance (l : String) : Decidable (plainBody l) := by
  unfold plainBody; infer_instance

/-- The running `src` value of the `Image`/`Audio` body loop over a list of
consumed lines: `"\n"` lines are skipped, every other line overwrites `src`
with its stripped form. -/
def foldSrc (src : String) (ls : List String) : String :=
  ls.foldl (fun acc l => if l = "\n" then acc else pyStrip l) src

/-- `doc.replace_data` applied to each body line in order, propagating the
first failure (the substituted lines the Plotly loop accumulates). -/
def mapSubst (doc : Doc) : List String → Except Err (List String)
  | [] => .ok []
  | l :: ls =>
    match replace_data doc l with
    | .error e => .error e
    | .ok s =>
      match mapSubst doc ls with
      | .error e => .error e
      | .ok ss => .ok (s :: ss)

/-- The document of the spec's resolver examples: `x ↦ [10, 20, 30, 40, 50]`. -/
def xdoc : Doc := { name := "r", data := some [("x", NDArr.ofList [10, 20, 30, 40, 50])] }

/-- An ordinary alert body line: plain, and not an assignment to the
declared `type` attribute. -/
def plainAlert (l : String) : Prop :=
  plainBody l ∧ pyStartsWith l "type=" = false

instance (l : String) : Decidable (plainAlert l) := by
  unfold plainAlert; infer_instance

/-! ## Helper lemmas -/

theorem parse_attr_nil (line : String) (stream : List String) (attrs : AttrMap) :
    parse_attr [] line stream attrs = .ok (line, stream, attrs) := rfl

theorem parse_attr_nomatch (schema : Schema) :
    ∀ (line : String) (stream : List String) (attrs : AttrMap),
    (∀ p ∈ schema, pyStartsWith line (p.1 ++ "=") = false) →
    parse_attr schema line stream attrs = .ok (line, stream, attrs) := by
  induction schema with
  | nil => intro line stream attrs _; rfl
  | cons p rest ih =>
    intro line stream attrs h
    obtain ⟨attr, default⟩ := p
    have hp := h (attr, default) (List.mem_cons_self _ _)
    simp only [parse_attr, hp, Bool.false_eq_true, if_false]
    exact ih line stream attrs (fun q hq => h q (List.mem_cons_of_mem _ hq))

theorem parse_gen_term (schema : Schema) (line : String) (stream : List String)
    (attrs : AttrMap)
    (h : line = "" ∨ pyStartsWith line "[" = true ∨ pyStartsWith line "--" = true) :
    parse_gen schema line stream attrs = .ok (line, stream, attrs, true) := by
  unfold parse_gen
  by_cases h0 : line = ""
  · simp [h0]
  · rcases h with h | h | h
    · exact absurd h h0
    · simp [h0, h]
    · simp [h0, h]

theorem parse_gen_plain (schema : Schema) (line : String) (stream : List String)
    (attrs : AttrMap) (hp : plainBody line)
    (hs : ∀ p ∈ schema, pyStartsWith line (p.1 ++ "=") = false) :
    parse_gen schema line stream attrs = .ok (line, stream, attrs, false) := by
  obtain ⟨h0, h1, h2, h3⟩ := hp
  unfold parse_gen
  simp [h0, h1, h2, h3, parse_attr_nomatch schema line stream attrs hs]

theorem foldSrc_of_filter_nil : ∀ (body : List String) (init : String),
    body.filter (fun l => l ≠ "\n") = [] → foldSrc init body = init := by
  intro body
  induction body with
  | nil => intro init _; rfl
  | cons b bs ih =>
    intro init h
    by_cases hb : b = "\n"
    · simp only [List.filter_cons, hb] at h
      simp only [decide_not, decide_eq_true_eq] at h ⊢
      have h' : bs.filter (fun l => !decide (l = "\n")) = [] := by
        simpa using h
      simpa [foldSrc, hb] using ih init (by simpa using h')
    · exfalso
      simp [List.filter_cons, hb] at h

theorem foldSrc_of_getLast : ∀ (body : List String) (init l : String),
    (body.filter (fun x => x ≠ "\n")).getLast? = some l →
    foldSrc init body = pyStrip l := by
  intro body
  induction body with
  | nil => intro init l h; simp at h
  | cons b bs ih =>
    intro init l h
    by_cases hb : b = "\n"
    · have h' : (bs.filter (fun x => x ≠ "\n")).getLast? = some l := by
        simpa [List.filter_cons, hb] using h
      simpa [foldSrc, hb] using ih init l h'
    · have hf : (b :: bs).filter (fun x => x ≠ "\n") =
          b :: bs.filter (fun x => x ≠ "\n") := by
        simp [List.filter_cons, hb]
      rw [hf] at h
      cases hrest : bs.filter (fun x => x ≠ "\n") with
      | nil =>
        rw [hrest] at h
        simp only [List.getLast?_singleton, Option.some.injEq] at h
        have : foldSrc (pyStrip b) bs = pyStrip b :=
          foldSrc_of_filter_nil bs (pyStrip b) hrest
        simp [foldSrc, hb] at this ⊢
        rw [this, h]
      | cons c cs =>
        rw [hrest, List.getLast?_cons_cons] at h
        have := ih (pyStrip b) l (by rw [hrest]; exact h)
        simpa [foldSrc, hb] using this

theorem image_loop_run : ∀ (body : List String) (fuel : Nat) (line : String)
    (attrs : AttrMap) (src : String), body.length + 2 ≤ fuel →
    plainBody line → (∀ l ∈ body, plainBody l) →
    Image.parseLoop fuel line body attrs src =
      .ok ("", [], foldSrc src (line :: body)) := by
  intro body
  induction body with
  | nil =>
    intro fuel line attrs src hfuel hline _
    match fuel, hfuel with
    | n + 1, _ =>
      simp only [Image.parseLoop,
        parse_gen_plain Image.ATTRIBUTES line [] attrs hline (by simp [Image.ATTRIBUTES])]
      match n, (by omega : 1 ≤ n) with
      | m + 1, _ =>
        by_cases hl : line = "\n" <;>
          simp [hl, readline, Image.parseLoop,
            parse_gen_term Image.ATTRIBUTES "" [] attrs (Or.inl rfl), foldSrc]
  | cons b bs ih =>
    intro fuel line attrs src hfuel hline hbody
    match fuel, hfuel with
    | n + 1, hf =>
      simp only [Image.parseLoop,
        parse_gen_plain Image.ATTRIBUTES line (b :: bs) attrs hline
          (by simp [Image.ATTRIBUTES])]
      have hb : plainBody b := hbody b (List.mem_cons_self _ _)
      have hbs : ∀ l ∈ bs, plainBody l := fun l hl => hbody l (List.mem_cons_of_mem _ hl)
      have hn : bs.length + 2 ≤ n := by simp only [List.length_cons] at hf; omega
      by_cases hl : line = "\n" <;>
        simp [hl, readline, ih n b attrs _ hn hb hbs, foldSrc]

theorem audio_loop_eq_image : ∀ (fuel : Nat) (line : String) (stream : List String)
    (attrs : AttrMap) (src : String),
    Audio.parseLoop fuel line stream attrs src =
      Image.parseLoop fuel line stream attrs src := by
  intro fuel
  induction fuel with
  | zero => intro line stream attrs src; rfl
  | succ n ih =>
    intro line stream attrs src
    simp only [Audio.parseLoop, Image.parseLoop, Audio.ATTRIBUTES, Image.ATTRIBUTES]
    cases hpg : parse_gen [] line stream attrs with
    | error e => rfl
    | ok r =>
      obtain ⟨l₂, s₂, a₂, brk⟩ := r
      by_cases hbrk : brk = true
      · simp [hbrk]
      · simp only [Bool.not_eq_true] at hbrk
        by_cases hl : l₂ = "\n" <;> simp [hbrk, hl, ih]

/-! ## C1 -/

/-- C1: of the spec's four resolver examples on `x = [10,20,30,40,50]`, only
`@data.x[::-1]` produces its claimed string.  `@data.x[1:3]` and
`@data.x[-2:]` raise `TypeError` because the fallback branches evaluate
`len(slice)` — `slice` being the Python builtin type, a typo for the local
`_slice` — and `@data.x[1]` raises `TypeError` because `arr2str` iterates
over the resulting 0-d scalar.  This contradicts the claim that all four
examples yield the host-array results. -/
theorem C1_resolver_examples_crash :
    get_data xdoc "@data.x[1:3]" true = .error .typeError ∧
    get_data xdoc "@data.x[-2:]" true = .error .typeError ∧
    get_data xdoc "@data.x[::-1]" true = .ok (.str "[50, 40, 30, 20, 10]") ∧
    get_data xdoc "@data.x[1]" true = .error .typeError :=
  ⟨rfl, rfl, rfl, rfl⟩

/-! ## C3 -/

/-- C3: `Audio.render` and `Video.render` fall off the end of the function
without a `return`, so they yield `None` rather than an output-markup
string — contradicting the Element `render()` contract.  The markup each
body builds into its local (`renderBuilt`) is exactly the tag the claim
describes, source path and per-pair `<source>` entries included, but it is
never returned. -/
theorem C3_audio_video_render_returns_none :
    (∀ a : Audio, Audio.render a = none) ∧
    (∀ v : Video, Video.render v = none) ∧
    Audio.renderBuilt ⟨"a.mp3"⟩ =
      "<audio controls src='a.mp3'>Your browser does not support the <code>audio</code> element.</audio>" ∧
    Video.renderBuilt ⟨[("video/mp4", "movie.mp4"), ("video/ogg", "movie.ogv")]⟩ =
      "<video controls width='80%'><source src='movie.mp4', type='video/mp4'><source src='movie.ogv', type='video/ogg'>Your browser does not support the <code>video</code> element.</video>" :=
  ⟨fun _ => rfl, fun _ => rfl, rfl, rfl⟩

/-! ## C5 -/

/-- C5: the boolean coercion tuple is `("true", "yes", "t", 1, "y")` with
the *integer* `1`, so the text `"1"` coerces to `False`, not `True` as the
claim states: the list-directive line `block=1` stores `block = False`.
The other four listed texts do coerce to `True` (case-insensitively), and
other texts to `False`. -/
theorem C5_bool_coercion_int_one :
    boolCoerce "1" = false ∧
    boolCoerce "true" = true ∧ boolCoerce "YES" = true ∧
    boolCoerce "t" = true ∧ boolCoerce "y" = true ∧
    boolCoerce "false" = false ∧ boolCoerce "on" = false ∧
    parse_attr ListDirective.ATTRIBUTES "block=1\n" ["x\n"]
        (init_attributes ListDirective.ATTRIBUTES) =
      .ok ("x\n", [],
        [("block", .bool false), ("ordered", .bool false), ("prelude", .str "")]) :=
  ⟨rfl, rfl, rfl, rfl, rfl, rfl, rfl, rfl⟩

/-! ## C8 -/

/-- C8: on an already-terminated lookahead (empty string at end of stream, a
section marker, or a directive marker) the shared generic-termination step
returns that same line with the stream untouched and the break flag set —
since the output state equals the input state, re-applying the step is
idempotent. -/
theorem C8_parse_gen_idempotent_on_terminated (schema : Schema) (line : String)
    (stream : List String) (attrs : AttrMap)
    (h : line = "" ∨ pyStartsWith line "[" = true ∨ pyStartsWith line "--" = true) :
    parse_gen schema line stream attrs = .ok (line, stream, attrs, true) :=
  parse_gen_term schema line stream attrs h

/-- C8 witness: the terminated lookaheads `""`, `"[Results]\n"` and
`"--list\n"` are returned unchanged with nothing consumed. -/
theorem C8_witness :
    ("" = "" ∨ pyStartsWith "" "[" = true ∨ pyStartsWith "" "--" = true) ∧
    parse_gen Alert.ATTRIBUTES "" ["a\n"] (init_attributes Alert.ATTRIBUTES) =
      .ok ("", ["a\n"], init_attributes Alert.ATTRIBUTES, true) ∧
    parse_gen ListDirective.ATTRIBUTES "[Results]\n" ["a\n"]
        (init_attributes ListDirective.ATTRIBUTES) =
      .ok ("[Results]\n", ["a\n"], init_attributes ListDirective.ATTRIBUTES, true) ∧
    parse_gen Image.ATTRIBUTES "--list\n" [] (init_attributes Image.ATTRIBUTES) =
      .ok ("--list\n", [], init_attributes Image.ATTRIBUTES, true) :=
  ⟨Or.inl rfl,
    C8_parse_gen_idempotent_on_terminated _ _ _ _ (Or.inl rfl),
    C8_parse_gen_idempotent_on_terminated _ _ _ _ (Or.inr (Or.inl (by decide))),
    C8_parse_gen_idempotent_on_terminated _ _ _ _ (Or.inr (Or.inr (by decide)))⟩

/-! ## C4 -/

/-- C4 counterexample: for the list directive, the leading attribute lines
in the order `ordered=true` then `block=true` are *not* both consumed as
attributes — `parse_attr`'s single pass tests declared names in declaration
order (`block`, `ordered`, `prelude`), so after matching `ordered` it never
re-tests `block`; the line `block=true` is returned unconsumed and becomes
a body item, and the element's `block` attribute keeps its default
`False`. -/
theorem C4_counterexample :
    ListDirective.parse "--list\n" ["ordered=true\n", "block=true\n", "x\n"] =
      .ok ("", [],
        { items := [("block=true", none), ("x", none)], block := false,
          ordered := true, prelude := "" }) ∧
    (∀ r, ListDirective.parse "--list\n" ["ordered=true\n", "block=true\n", "x\n"] =
        .ok r → r.2.2.block = false ∧ ("block=true", none) ∈ r.2.2.items) := by
  refine ⟨rfl, ?_⟩
  intro r hr
  rw [show ListDirective.parse "--list\n" ["ordered=true\n", "block=true\n", "x\n"] =
      .ok ("", [],
        { items := [("block=true", none), ("x", none)], block := false,
          ordered := true, prelude := "" }) from rfl] at hr
  cases hr
  exact ⟨rfl, by simp⟩

/-- C4 amended: within one attribute-parsing pass the declared names are
tested in declaration order, so (i) a line matching no declared name is
never consumed and is returned with the stream unchanged; (ii) leading
attribute lines in declaration order (for list: `block=true` then
`ordered=true`) are all consumed; (iii) in the reverse order only
`ordered` is consumed and `block=true` is returned unconsumed (to become
body content). -/
theorem C4_amended_declaration_order (line : String) (stream : List String)
    (attrs : AttrMap) (schema : Schema)
    (h : ∀ p ∈ schema, pyStartsWith line (p.1 ++ "=") = false) :
    parse_attr schema line stream attrs = .ok (line, stream, attrs) ∧
    parse_attr ListDirective.ATTRIBUTES "block=true\n" ["ordered=true\n", "x\n"]
        (init_attributes ListDirective.ATTRIBUTES) =
      .ok ("x\n", [],
        [("block", .bool true), ("ordered", .bool true), ("prelude", .str "")]) ∧
    parse_attr ListDirective.ATTRIBUTES "ordered=true\n" ["block=true\n", "x\n"]
        (init_attributes ListDirective.ATTRIBUTES) =
      .ok ("block=true\n", ["x\n"],
        [("block", .bool false), ("ordered", .bool true), ("prelude", .str "")]) :=
  ⟨parse_attr_nomatch schema line stream attrs h, rfl, rfl⟩

/-- C4 witness: the amended statement applied to the non-matching lookahead
`"Plain item\n"` for the list schema. -/
theorem C4_witness :
    (∀ p ∈ ListDirective.ATTRIBUTES,
      pyStartsWith "Plain item\n" (p.1 ++ "=") = false) ∧
    parse_attr ListDirective.ATTRIBUTES "Plain item\n" ["x\n"]
        (init_attributes ListDirective.ATTRIBUTES) =
      .ok ("Plain item\n", ["x\n"], init_attributes ListDirective.ATTRIBUTES) :=
  ⟨by decide,
    (C4_amended_declaration_order "Plain item\n" ["x\n"]
      (init_attributes ListDirective.ATTRIBUTES) ListDirective.ATTRIBUTES
      (by decide)).1⟩

/-! ## C6 -/

/-- C6 counterexample: an image directive whose body holds the two distinct
non-blank lines `a.png` and `b.png` stores `b.png` — the loop overwrites
`src` on every non-blank line, so the *last* one wins, not the first as
the claim states. -/
theorem C6_counterexample :
    Image.parse "--image\n" ["a.png\n", "b.png\n"] = .ok ("", [], ⟨"b.png"⟩) ∧
    pyStrip "a.png\n" = "a.png" ∧ "b.png" ≠ "a.png" :=
  ⟨rfl, rfl, by decide⟩

/-- C6 amended: for every image or audio directive body (of ordinary body
lines), the resource path stored in the produced element is the *last*
non-blank body line, trimmed; for image it is embedded in the rendered
markup (audio's `render` returns `None`, see C3). -/
theorem C6_amended_last_nonblank_src (marker : String) (body : List String)
    (h : ∀ l ∈ body, plainBody l) :
    Image.parse marker body = .ok ("", [], ⟨foldSrc "" body⟩) ∧
    Audio.parse marker body = .ok ("", [], ⟨foldSrc "" body⟩) ∧
    (∀ (bs : List String) (l : String),
      (bs.filter (fun x => x ≠ "\n")).getLast? = some l →
      foldSrc "" bs = pyStrip l) ∧
    (∀ s, Image.render ⟨s⟩ =
      "<center><br/><img src=\"" ++ s ++ "\" width=\"80%\"/><br/></center>") := by
  refine ⟨?_, ?_, fun bs l hl => foldSrc_of_getLast bs "" l hl, fun s => rfl⟩
  · unfold Image.parse
    cases body with
    | nil => rfl
    | cons b bs =>
      have hb : plainBody b := h b (List.mem_cons_self _ _)
      have hbs : ∀ l ∈ bs, plainBody l := fun l hl => h l (List.mem_cons_of_mem _ hl)
      simp [readline, Except.map,
        image_loop_run bs (bs.length + 2) b _ "" (by omega) hb hbs, foldSrc]
  · unfold Audio.parse
    cases body with
    | nil => rfl
    | cons b bs =>
      have hb : plainBody b := h b (List.mem_cons_self _ _)
      have hbs : ∀ l ∈ bs, plainBody l := fun l hl => h l (List.mem_cons_of_mem _ hl)
      simp [readline, audio_loop_eq_image, Except.map,
        image_loop_run bs (bs.length + 2) b _ "" (by omega) hb hbs, foldSrc]

/-- C6 witness: the amended statement at the concrete body
`["a.png\n", "\n", " b.png \n"]`, whose last non-blank line strips to
`b.png`. -/
theorem C6_witness :
    (∀ l ∈ ["a.png\n", "\n", " b.png \n"], plainBody l) ∧
    Image.parse "--image\n" ["a.png\n", "\n", " b.png \n"] =
      .ok ("", [], ⟨foldSrc "" ["a.png\n", "\n", " b.png \n"]⟩) ∧
    foldSrc "" ["a.png\n", "\n", " b.png \n"] = "b.png" :=
  ⟨by decide,
    (C6_amended_last_nonblank_src "--image\n" ["a.png\n", "\n", " b.png \n"]
      (by decide)).1,
    rfl⟩

/-! ## C9 -/

theorem javascript_loop_run : ∀ (body : List String) (fuel : Nat) (line : String)
    (attrs : AttrMap) (acc : List String), body.length + 2 ≤ fuel →
    plainBody line → (∀ l ∈ body, plainBody l) →
    Javascript.parseLoop fuel line body attrs acc =
      .ok ("", [], acc ++ line :: body) := by
  intro body
  induction body with
  | nil =>
    intro fuel line attrs acc hfuel hline _
    match fuel, hfuel with
    | n + 1, hf =>
      simp only [Javascript.parseLoop,
        parse_gen_plain Javascript.ATTRIBUTES line [] attrs hline
          (by simp [Javascript.ATTRIBUTES])]
      match n, (by omega : 1 ≤ n) with
      | m + 1, _ =>
        simp [readline, Javascript.parseLoop,
          parse_gen_term Javascript.ATTRIBUTES "" [] attrs (Or.inl rfl)]
  | cons b bs ih =>
    intro fuel line attrs acc hfuel hline hbody
    match fuel, hfuel with
    | n + 1, hf =>
      simp only [Javascript.parseLoop,
        parse_gen_plain Javascript.ATTRIBUTES line (b :: bs) attrs hline
          (by simp [Javascript.ATTRIBUTES])]
      have hb : plainBody b := hbody b (List.mem_cons_self _ _)
      have hbs : ∀ l ∈ bs, plainBody l := fun l hl => hbody l (List.mem_cons_of_mem _ hl)
      have hn : bs.length + 2 ≤ n := by simp only [List.length_cons] at hf; omega
      simp [readline, ih n b attrs _ hn hb hbs]

theorem plotly_loop_run (doc : Doc) : ∀ (body : List String) (fuel : Nat)
    (line : String) (attrs : AttrMap) (acc : List String) (s : String)
    (subs : List String), body.length + 2 ≤ fuel →
    plainBody line → (∀ l ∈ body, plainBody l) →
    replace_data doc line = .ok s →
    mapSubst doc body = .ok subs →
    Plotly.parseLoop doc fuel line body attrs acc =
      .ok ("", [], acc ++ s :: subs) := by
  intro body
  induction body with
  | nil =>
    intro fuel line attrs acc s subs hfuel hline _ hrd hmap
    match fuel, hfuel with
    | n + 1, hf =>
      simp only [Plotly.parseLoop,
        parse_gen_plain Plotly.ATTRIBUTES line [] attrs hline
          (by simp [Plotly.ATTRIBUTES]), hrd]
      have hsubs : subs = [] := by
        simp only [mapSubst, Except.ok.injEq] at hmap
        exact hmap.symm
      match n, (by omega : 1 ≤ n) with
      | m + 1, _ =>
        simp [readline, Plotly.parseLoop, hsubs,
          parse_gen_term Plotly.ATTRIBUTES "" [] attrs (Or.inl rfl)]
  | cons b bs ih =>
    intro fuel line attrs acc s subs hfuel hline hbody hrd hmap
    match fuel, hfuel with
    | n + 1, hf =>
      simp only [Plotly.parseLoop,
        parse_gen_plain Plotly.ATTRIBUTES line (b :: bs) attrs hline
          (by simp [Plotly.ATTRIBUTES]), hrd]
      have hb : plainBody b := hbody b (List.mem_cons_self _ _)
      have hbs : ∀ l ∈ bs, plainBody l := fun l hl => hbody l (List.mem_cons_of_mem _ hl)
      have hn : bs.length + 2 ≤ n := by simp only [List.length_cons] at hf; omega
      simp only [mapSubst] at hmap
      cases hrb : replace_data doc b with
      | error e => rw [hrb] at hmap; simp at hmap
      | ok sb =>
        rw [hrb] at hmap
        cases hrbs : mapSubst doc bs with
        | error e => rw [hrbs] at hmap; simp at hmap
        | ok sbs =>
          rw [hrbs] at hmap
          simp only [Except.ok.injEq] at hmap
          subst hmap
          simp [readline, ih n b attrs _ sb sbs hn hb hbs hrb hrbs]

/-- C9: a javascript (client-script) directive appends its body lines
verbatim to `doc.js` and its element renders as the empty string; a plotly
(interactive-plot) directive appends the container-binding prelude
statement followed by the data-substituted body lines to `doc.js`, and its
element renders only the placeholder `<div>` with the generated identifier
— a fixed string independent of the body, so no raw body line appears in
the rendered markup of either. -/
theorem C9_script_payload_no_leak (doc : Doc) (eltId marker : String)
    (body subs : List String) (h : ∀ l ∈ body, plainBody l)
    (hsub : mapSubst doc body = .ok subs) :
    Javascript.parse marker body doc =
      .ok ("", [], { doc with js := doc.js ++ body }, ⟨⟩) ∧
    Javascript.render ⟨⟩ = "" ∧
    Plotly.parse eltId marker body doc =
      .ok ("", [],
        { doc with js := doc.js ++
            ("CONTAINER = document.getElementById('" ++ eltId ++ "');") :: subs },
        ⟨⟨"div", [("class", "row"), ("id", eltId)], []⟩⟩) ∧
    Plotly.render ⟨⟨"div", [("class", "row"), ("id", eltId)], []⟩⟩ =
      "<div class=\"row\" id=\"" ++ eltId ++ "\"></div>" := by
  refine ⟨?_, rfl, ?_, ?_⟩
  · unfold Javascript.parse
    cases body with
    | nil =>
      simp [readline, Javascript.parseLoop, Except.map,
        parse_gen_term Javascript.ATTRIBUTES "" []
          (init_attributes Javascript.ATTRIBUTES) (Or.inl rfl)]
    | cons b bs =>
      have hb : plainBody b := h b (List.mem_cons_self _ _)
      have hbs : ∀ l ∈ bs, plainBody l := fun l hl => h l (List.mem_cons_of_mem _ hl)
      simp [readline, Except.map,
        javascript_loop_run bs (bs.length + 2) b _ [] (by omega) hb hbs]
  · unfold Plotly.parse
    cases body with
    | nil =>
      have hsubs : subs = [] := by
        simp only [mapSubst, Except.ok.injEq] at hsub
        exact hsub.symm
      simp [readline, Plotly.parseLoop, hsubs, Except.map,
        parse_gen_term Plotly.ATTRIBUTES "" []
          (init_attributes Plotly.ATTRIBUTES) (Or.inl rfl)]
    | cons b bs =>
      have hb : plainBody b := h b (List.mem_cons_self _ _)
      have hbs : ∀ l ∈ bs, plainBody l := fun l hl => h l (List.mem_cons_of_mem _ hl)
      simp only [mapSubst] at hsub
      cases hrb : replace_data doc b with
      | error e => rw [hrb] at hsub; simp at hsub
      | ok sb =>
        rw [hrb] at hsub
        cases hrbs : mapSubst doc bs with
        | error e => rw [hrbs] at hsub; simp at hsub
        | ok sbs =>
          rw [hrbs] at hsub
          simp only [Except.ok.injEq] at hsub
          subst hsub
          simp [readline, Except.map,
            plotly_loop_run doc bs (bs.length + 2) b _ _ sb sbs (by omega) hb hbs hrb hrbs]
  · unfold Plotly.render HtmlElement.render
    apply String.ext
    simp only [pyJoin, String.data_append, List.append_assoc, List.append_nil]
    rfl

/-- C9 witness: a two-line client-script body and a one-line plot body with
no data references (so substitution is the identity). -/
theorem C9_witness :
    (∀ l ∈ ["var x = 1;\n", "f(x);\n"], plainBody l) ∧
    Javascript.parse "--javascript\n" ["var x = 1;\n", "f(x);\n"] { name := "r" } =
      .ok ("", [], { name := "r", js := ["var x = 1;\n", "f(x);\n"] }, ⟨⟩) ∧
    Plotly.parse "plot-7" "--plotly\n" ["var x = 1;\n", "f(x);\n"] { name := "r" } =
      .ok ("", [],
        { name := "r",
          js := ["CONTAINER = document.getElementById('plot-7');",
            "var x = 1;\n", "f(x);\n"] },
        ⟨⟨"div", [("class", "row"), ("id", "plot-7")], []⟩⟩) := by
  have h := C9_script_payload_no_leak { name := "r" } "plot-7" "--plotly\n"
    ["var x = 1;\n", "f(x);\n"] ["var x = 1;\n", "f(x);\n"] (by decide) rfl
  exact ⟨by decide, h.1, h.2.2.1⟩

/-! ## C10 -/

theorem parse_gen_alert_attr (line v l' : String) (stream : List String)
    (s' : List String) (attrs : AttrMap)
    (h0 : line ≠ "") (h1 : pyStartsWith line "[" = false)
    (h2 : pyStartsWith line "--" = false)
    (hm : pyStartsWith line "type=" = true)
    (hv : pyStrip (pyReplace line "type=" "") = v)
    (hrl : readline stream = (l', s'))
    (hnop : pyStartsWith l' "__nop" = false) :
    parse_gen Alert.ATTRIBUTES line stream attrs =
      .ok (l', s', setAttr attrs "type" (.str v), false) := by
  unfold parse_gen
  simp only [h0, h1, h2, Bool.false_eq_true, if_false]
  simp only [Alert.ATTRIBUTES, parse_attr, hm, if_true, coerceValue, hv, hrl]
  simp [hm, hnop, hv]

theorem alert_plain_run : ∀ (body : List String) (fuel : Nat) (line : String)
    (attrs : AttrMap) (texts : List String), body.length + 2 ≤ fuel →
    plainAlert line → (∀ l ∈ body, plainAlert l) →
    Alert.parseLoop fuel line body attrs texts =
      .ok ("", [], attrs, texts ++ line :: body) := by
  intro body
  induction body with
  | nil =>
    intro fuel line attrs texts hfuel hline _
    match fuel, hfuel with
    | n + 1, hf =>
      have hpg := parse_gen_plain Alert.ATTRIBUTES line [] attrs hline.1
        (by simpa [Alert.ATTRIBUTES] using hline.2)
      simp only [Alert.parseLoop, hpg]
      match n, (by omega : 1 ≤ n) with
      | m + 1, _ =>
        simp [readline, Alert.parseLoop,
          parse_gen_term Alert.ATTRIBUTES "" [] attrs (Or.inl rfl)]
  | cons b bs ih =>
    intro fuel line attrs texts hfuel hline hbody
    match fuel, hfuel with
    | n + 1, hf =>
      have hpg := parse_gen_plain Alert.ATTRIBUTES line (b :: bs) attrs hline.1
        (by simpa [Alert.ATTRIBUTES] using hline.2)
      simp only [Alert.parseLoop, hpg]
      have hb : plainAlert b := hbody b (List.mem_cons_self _ _)
      have hbs : ∀ l ∈ bs, plainAlert l := fun l hl => hbody l (List.mem_cons_of_mem _ hl)
      have hn : bs.length + 2 ≤ n := by simp only [List.length_cons] at hf; omega
      simp [readline, ih n b attrs _ hn hb hbs]

theorem alert_danger_run : ∀ (post : List String) (fuel : Nat)
    (attrs : AttrMap) (texts : List String), post.length + 2 ≤ fuel →
    (∀ l ∈ post, plainAlert l) →
    Alert.parseLoop fuel "type=danger\n" post attrs texts =
      .ok ("", [], setAttr attrs "type" (.str "danger"),
        texts ++ post ++ (if post.isEmpty then [""] else [])) := by
  intro post fuel attrs texts hfuel hpost
  match post, hpost with
  | [], _ =>
    match fuel, hfuel with
    | n + 1, hf =>
      have hpg := parse_gen_alert_attr "type=danger\n" "danger" "" [] [] attrs
        (by decide) (by decide) (by decide) (by decide) rfl rfl (by decide)
      simp only [Alert.parseLoop, hpg]
      match n, (by omega : 1 ≤ n) with
      | m + 1, _ =>
        simp [readline, Alert.parseLoop,
          parse_gen_term Alert.ATTRIBUTES "" [] _ (Or.inl rfl)]
  | q :: qs, hq =>
    have hqp : plainAlert q := hq q (List.mem_cons_self _ _)
    have hqs : ∀ l ∈ qs, plainAlert l := fun l hl => hq l (List.mem_cons_of_mem _ hl)
    match fuel, hfuel with
    | n + 1, hf =>
      have hpg := parse_gen_alert_attr "type=danger\n" "danger" q (q :: qs) qs attrs
        (by decide) (by decide) (by decide) (by decide) rfl rfl hqp.1.2.2.2
      simp only [Alert.parseLoop, hpg]
      have hn : qs.length + 2 ≤ n := by simp only [List.length_cons] at hf; omega
      cases qs with
      | nil =>
        match n, hn with
        | m + 1, _ =>
          simp [readline, Alert.parseLoop,
            parse_gen_term Alert.ATTRIBUTES "" []
              (setAttr attrs "type" (PyVal.str "danger")) (Or.inl rfl)]
      | cons q2 qs2 =>
        have hq2 : plainAlert q2 := hqs q2 (List.mem_cons_self _ _)
        have hqs2 : ∀ l ∈ qs2, plainAlert l := fun l hl => hqs l (List.mem_cons_of_mem _ hl)
        simp [readline,
          alert_plain_run qs2 n q2 _ _ (by simp only [List.length_cons] at hn; omega) hq2 hqs2]

theorem alert_mixed_run : ∀ (pre : List String) (fuel : Nat) (line : String)
    (attrs : AttrMap) (texts post : List String),
    (pre ++ "type=danger\n" :: post).length + 2 ≤ fuel →
    plainAlert line → (∀ l ∈ pre, plainAlert l) → (∀ l ∈ post, plainAlert l) →
    Alert.parseLoop fuel line (pre ++ "type=danger\n" :: post) attrs texts =
      .ok ("", [], setAttr attrs "type" (.str "danger"),
        texts ++ line :: pre ++ post ++ (if post.isEmpty then [""] else [])) := by
  intro pre
  induction pre with
  | nil =>
    intro fuel line attrs texts post hfuel hline _ hpost
    match fuel, hfuel with
    | n + 1, hf =>
      have hpg := parse_gen_plain Alert.ATTRIBUTES line ("type=danger\n" :: post)
        attrs hline.1 (by simpa [Alert.ATTRIBUTES] using hline.2)
      simp only [List.nil_append, Alert.parseLoop, hpg]
      have hn : post.length + 2 ≤ n := by
        simp only [List.nil_append, List.length_cons] at hf; omega
      simp [readline, alert_danger_run post n attrs (texts ++ [line]) hn hpost]
  | cons p ps ih =>
    intro fuel line attrs texts post hfuel hline hpre hpost
    match fuel, hfuel with
    | n + 1, hf =>
      have hpg := parse_gen_plain Alert.ATTRIBUTES line
        ((p :: ps) ++ "type=danger\n" :: post) attrs hline.1
        (by simpa [Alert.ATTRIBUTES] using hline.2)
      simp only [Alert.parseLoop, hpg]
      have hp : plainAlert p := hpre p (List.mem_cons_self _ _)
      have hps : ∀ l ∈ ps, plainAlert l := fun l hl => hpre l (List.mem_cons_of_mem _ hl)
      have hn : (ps ++ "type=danger\n" :: post).length + 2 ≤ n := by
        simp only [List.cons_append, List.length_cons] at hf ⊢; omega
      simp [readline, ih n p attrs _ post hn hp hps hpost]

theorem join_append_empty (xs : List String) :
    String.join (xs ++ [""]) = String.join xs := by
  simp [String.join, List.foldl_append]

theorem alert_loop_step (fuel : Nat) (line l₂ : String) (stream s₂ : List String)
    (attrs a₂ : AttrMap) (texts : List String) (hfuel : 1 ≤ fuel)
    (hpg : parse_gen Alert.ATTRIBUTES line stream attrs = .ok (l₂, s₂, a₂, false)) :
    Alert.parseLoop fuel line stream attrs texts =
      Alert.parseLoop (fuel - 1) (readline s₂).1 (readline s₂).2 a₂ (texts ++ [l₂]) := by
  match fuel, hfuel with
  | n + 1, _ => simp [Alert.parseLoop, hpg]

/-- C10 counterexample: a line matching a declared attribute name can still
become body content.  For the list directive with body `item1`,
`ordered=true`, `block=true`: the pass that consumes `ordered=true` returns
`block=true` (already past `block` in declaration order), and the loop
stores it as a plain item with `block` left `False`.  This refutes "only
lines matching no declared attribute name become body content". -/
theorem C10_counterexample :
    ListDirective.parse "--list\n" ["item1\n", "ordered=true\n", "block=true\n"] =
      .ok ("", [],
        { items := [("item1", none), ("block=true", none)], block := false,
          ordered := true, prelude := "" }) := rfl

/-- C10 amended: a body line `type=<value>` that follows ordinary alert
body content is consumed as an attribute assignment by the fresh
`parse_attr` pass of that iteration — overwriting the previously stored
value (here an earlier `type=info`) — and does not appear in the
accumulated body text; but a line matching a declared name is *not*
guaranteed to be consumed when it immediately follows another attribute
line consumed in the same pass at a later-or-equal declared position (see
the counterexample). -/
theorem C10_amended_late_attr_consumed (marker p : String) (pre post : List String)
    (hp : plainAlert p) (hpre : ∀ l ∈ pre, plainAlert l)
    (hpost : ∀ l ∈ post, plainAlert l) :
    Alert.parse marker (("type=info\n" :: p :: pre) ++ "type=danger\n" :: post) =
      .ok ("", [],
        ⟨String.join (p :: pre ++ post ++ (if post.isEmpty then [""] else [])),
          "danger"⟩) ∧
    String.join (p :: pre ++ post ++ (if post.isEmpty then [""] else [])) =
      String.join (p :: pre ++ post) := by
  constructor
  · have hinfo := parse_gen_alert_attr "type=info\n" "info" p
      ((p :: pre) ++ "type=danger\n" :: post) (pre ++ "type=danger\n" :: post)
      (init_attributes Alert.ATTRIBUTES) (by decide) (by decide) (by decide)
      (by decide) rfl rfl hp.1.2.2.2
    unfold Alert.parse
    simp only [List.cons_append, readline]
    rw [alert_loop_step ((p :: (pre ++ "type=danger\n" :: post)).length + 2)
      "type=info\n" p (p :: (pre ++ "type=danger\n" :: post))
      (pre ++ "type=danger\n" :: post) (init_attributes Alert.ATTRIBUTES)
      (setAttr (init_attributes Alert.ATTRIBUTES) "type" (PyVal.str "info")) []
      (by omega) hinfo]
    cases pre with
    | nil =>
      simp only [List.nil_append, readline]
      rw [alert_danger_run post _ _ _ (by simp only [List.length_cons, List.length_append]; omega) hpost]
      simp [Except.map, getStrAttr, getAttr, setAttr, init_attributes,
        Alert.ATTRIBUTES]
    | cons p2 ps =>
      have hp2 : plainAlert p2 := hpre p2 (List.mem_cons_self _ _)
      have hps : ∀ l ∈ ps, plainAlert l := fun l hl => hpre l (List.mem_cons_of_mem _ hl)
      simp only [List.cons_append, readline]
      rw [alert_mixed_run ps _ p2 _ _ post
        (by simp only [List.length_cons, List.length_append]; omega) hp2 hps hpost]
      simp [Except.map, getStrAttr, getAttr, setAttr, init_attributes,
        Alert.ATTRIBUTES]
  · cases post with
    | nil => simpa using join_append_empty (p :: pre)
    | cons q qs => simp

/-- C10 witness: the alert body `type=info`, `a`, `type=danger`, `b`
parses to text `"a\nb\n"` with type `danger`. -/
theorem C10_witness :
    plainAlert "a\n" ∧ (∀ l ∈ ["b\n"], plainAlert l) ∧
    Alert.parse "--alert\n" ["type=info\n", "a\n", "type=danger\n", "b\n"] =
      .ok ("", [],
        ⟨String.join (["a\n"] ++ ["b\n"] ++
          (if (["b\n"] : List String).isEmpty then [""] else [])), "danger"⟩) :=
  ⟨by decide, by decide,
    (C10_amended_late_attr_consumed "--alert\n" "a\n" [] ["b\n"]
      (by decide) (by decide) (by decide)).1⟩

/-! ## C2 -/

theorem sliceIndices_full (n : Nat) : sliceIndices n none none 1 = List.range n := by
  simp only [sliceIndices]
  norm_num
  have h : ∀ m : Nat, List.map (fun j : Int => j.toNat)
      ((List.range m).flatMap fun a => [(a : Int)]) = List.range m := by
    intro m
    induction m with
    | zero => rfl
    | succ k ih => rw [List.range_succ]; simp [ih]
  exact h n

theorem flat_take_one : ∀ (xs : List Int),
    (List.range xs.length).flatMap (fun i => ((xs.drop i).take 1)) = xs := by
  intro xs
  induction xs with
  | nil => rfl
  | cons x rest ih =>
    rw [List.length_cons, List.range_succ_eq_map, List.flatMap_cons, List.flatMap_map]
    simp only [List.drop_zero, List.take_cons, List.drop_succ_cons]
    simpa using ih

theorem slice_full_step_one (xs : List Int) :
    pySliceOp (NDArr.ofList xs) none none 1 = .ok (NDArr.ofList xs) := by
  simp only [pySliceOp, NDArr.ofList]
  rw [if_neg (by norm_num : ¬ ((1:Int) = 0))]
  rw [sliceIndices_full]
  simp [flat_take_one]

/-- C2 counterexample: resolving `@data.x[:]` does not succeed — a slice
with empty start and empty stop and no step field falls into the source's
explicit `raise RuntimeError()` branch. -/
theorem C2_counterexample :
    get_data xdoc "@data.x[:]" false = .error .runtimeError := rfl

/-- C2 amended: a bracketed slice whose start and stop are both empty is
accepted only when a step field is present, in which case it behaves as
plain stepping — `@data.x[::1]` returns the bound array unchanged for every
one-dimensional array — while `@data.x[:]` (no step) raises `RuntimeError`
for every bound array instead of acting as the identity. -/
theorem C2_amended_empty_empty_slice (xs : List Int) (a : NDArr) :
    get_data { name := "r", data := some [("x", NDArr.ofList xs)] }
        "@data.x[::1]" false = .ok (.arr (NDArr.ofList xs)) ∧
    get_data { name := "r", data := some [("x", a)] } "@data.x[:]" false =
      .error .runtimeError := by
  constructor
  · rw [show get_data { name := "r", data := some [("x", NDArr.ofList xs)] }
          "@data.x[::1]" false =
        ((pySliceOp (NDArr.ofList xs) none none 1 >>= pure).map DataRes.arr) from rfl,
      slice_full_step_one]
    rfl
  · rfl

/-! ## C7 -/

/-- C7: the inline formatter splits on `"$$"` then (inside even segments)
on `"$"`; odd segments at both levels — the equation bodies — are passed
through verbatim, and only the even (non-equation) sub-segments receive the
code/bold/italic/link substitutions.  On `"cost $a*b$ is `fast`"` the
asterisk inside the inline equation is not expanded while `fast` becomes a
code span. -/
theorem C7_equation_regions_untouched :
    Text.render ⟨"cost $a*b$ is `fast`"⟩ = "cost $a*b$ is <code>fast</code>" ∧
    (∀ (t : Text) (i : Nat), i % 2 = 1 →
      (renderSegs t)[i]? = (pySplit t.text "$$")[i]?) ∧
    (∀ (t : Text) (i : Nat), i % 2 = 0 →
      (renderSegs t)[i]? = ((pySplit t.text "$$")[i]?).map renderSeg) ∧
    (∀ (s : String) (j : Nat), j % 2 = 1 →
      (renderSubSegs s)[j]? = (pySplit s "$")[j]?) ∧
    (∀ (s : String) (j : Nat), j % 2 = 0 →
      (renderSubSegs s)[j]? = ((pySplit s "$")[j]?).map applySubs) := by
  refine ⟨rfl, ?_, ?_, ?_, ?_⟩
  · intro t i hi
    simp only [renderSegs, List.getElem?_map, List.getElem?_enum, Option.map_map]
    cases h : (pySplit t.text "$$")[i]? <;> simp [Function.comp, hi]
  · intro t i hi
    simp only [renderSegs, List.getElem?_map, List.getElem?_enum, Option.map_map]
    cases h : (pySplit t.text "$$")[i]? <;> simp [Function.comp, hi]
  · intro s j hj
    simp only [renderSubSegs, List.getElem?_map, List.getElem?_enum, Option.map_map]
    cases h : (pySplit s "$")[j]? <;> simp [Function.comp, hj]
  · intro s j hj
    simp only [renderSubSegs, List.getElem?_map, List.getElem?_enum, Option.map_map]
    cases h : (pySplit s "$")[j]? <;> simp [Function.comp, hj]

/-- C7 witness: on `"a$$e$$b"` the display-equation segment `e` (odd index
1) is preserved verbatim, and on `"x$e2$`y`"` the inline-equation segment
`e2` is preserved while the even segments are substituted. -/
theorem C7_witness :
    (1 % 2 = 1 ∧ (renderSegs ⟨"a$$e$$b"⟩)[1]? = (pySplit "a$$e$$b" "$$")[1]?) ∧
    (0 % 2 = 0 ∧ (renderSegs ⟨"a$$e$$b"⟩)[0]? =
      ((pySplit "a$$e$$b" "$$")[0]?).map renderSeg) ∧
    (1 % 2 = 1 ∧ (renderSubSegs "x$e2$z")[1]? = (pySplit "x$e2$z" "$")[1]?) ∧
    (2 % 2 = 0 ∧ (renderSubSegs "x$e2$z")[2]? =
      ((pySplit "x$e2$z" "$")[2]?).map applySubs) :=
  ⟨⟨rfl, C7_equation_regions_untouched.2.1 ⟨"a$$e$$b"⟩ 1 rfl⟩,
    ⟨rfl, C7_equation_regions_untouched.2.2.1 ⟨"a$$e$$b"⟩ 0 rfl⟩,
    ⟨rfl, C7_equation_regions_untouched.2.2.2.1 "x$e2$z" 1 rfl⟩,
    ⟨rfl, C7_equation_regions_untouched.2.2.2.2 "x$e2$z" 2 rfl⟩⟩

end Pyscine
